import Mathlib

/-!
# Serial link handler of Gimbal_Control (`src/gimbal_control/Serial.cpp`)

A shallow embedding of the class `Serial`: the frame validator
(`_validate`, `_header_checksum`, `_body_checksum`), the guarded port access
(`_read_port`, `_write_port`, `read_message`, `write_message`) and the
connection lifecycle (`open_serial`, `_setup_port`, `close_serial`, `stop`).

Conventions of the embedding

* C `int` values are `Int`; no arithmetic of the file can leave the `int`
  range (sums of two or three small values), so no wrap-around is modelled.
* A byte of the receive buffer is a wire value `0 .. 255` (`Byte`).
* Whether plain `char` is signed is a property of the compilation target; it
  is a field of `Target`, and every function that converts to `char` takes
  the target as an argument.
* Results of operating-system calls (`select`, `read`, `write`, `close`,
  `isatty`, ...) are inputs of the model: every function that performs such
  calls takes a record with their outcomes.
* `printf`/`fprintf` diagnostics do not influence state or results and are
  not modelled.
* `throw EXIT_FAILURE` is `Except.error EXIT_FAILURE`, returned next to the
  state reached at the throw.
-/

namespace GimbalSerial

/-! ## Bytes, plain `char`, C remainder -/

/-- One byte as it travels on the wire. -/
abbrev Byte := Fin 256

/-- Compilation target: the only target property the file depends on is the
signedness of plain `char` (signed with GCC on x86, unsigned on ARM Linux). -/
structure Target where
  charSigned : Bool
  deriving DecidableEq, Repr

/-- Value of a byte once converted to plain `char` and promoted to `int`:
the byte itself on a target with unsigned `char`, and the byte minus 256 for
a byte from `0x80` on (a value in `-128 .. -1`) on a target with signed
`char`. -/
def toChar (t : Target) (b : Byte) : Int :=
  if t.charSigned && decide (128 ≤ b.val) then (b.val : Int) - 256 else (b.val : Int)

/-- C++ `a % b` on `int`: the remainder of the division that truncates
toward zero; it has the sign of the dividend. -/
def cRem (a b : Int) : Int := Int.tmod a b

/-- Receive buffer `msg` and scratch array `buf`: indexable byte storage.
Modelled from the spec: the element type and capacity of `msg` are declared in
`Serial.h`, which is not part of the sources; the spec describes the receive
buffer as fixed-capacity byte storage whose offsets 0..3 hold one-byte
fields, so an element is read as its wire value `0 .. 255`. -/
abbrev Buffer := Nat → Byte

/-- Buffer holding the listed bytes at offsets `0, 1, ...` and zero after. -/
def Buffer.ofList (l : List Nat) : Buffer :=
  fun i => Fin.ofNat (l.getD i 0)

/-! ## Frame validator -/

/-- Source `Serial::_header_checksum(char cmd_id, char data_size)`:
`int sum = cmd_id + data_size; int checksum = sum % 256; return checksum;`.
The arguments are the `char` values promoted to `int`. -/
def _header_checksum (cmd_id data_size : Int) : Int :=
  let sum := cmd_id + data_size
  let checksum := cRem sum 256
  checksum

/-- Source `Serial::_body_checksum(int result)`:
`lengthOfHeader = sizeof(uint32_t)`, `checksum = msg[2] + lengthOfHeader`,
returns `checksum == result ? true : false` as an `int`. -/
def _body_checksum (msg : Buffer) (result : Int) : Int :=
  let lengthOfHeader : Int := 4
  let checksum : Int := ((msg 2).val : Int) + lengthOfHeader
  if checksum = result then 1 else 0

/-- The local `hcs` of `_validate`:
`_header_checksum(msg[1], msg[2]) == msg[3] ? true : false`; the two arguments
are converted to `char` at the call. -/
def hcs (t : Target) (msg : Buffer) : Bool :=
  decide (_header_checksum (toChar t (msg 1)) (toChar t (msg 2)) = ((msg 3).val : Int))

/-- The local `bcs` of `_validate`: `bool bcs = _body_checksum(result);`. -/
def bcs (msg : Buffer) (result : Int) : Bool :=
  decide (_body_checksum msg result ≠ 0)

/-- Source `Serial::_validate(int result)`: `-3` when `msg[0]` is not `0x3E`;
otherwise `i` starts at `1`, becomes `-1` when `hcs` is false, and then
becomes `-2` when `bcs` is false (two independent `if`s, in this order). -/
def _validate (t : Target) (msg : Buffer) (result : Int) : Int :=
  if (msg 0).val = 0x3E then
    let i : Int := 1
    let i := if !hcs t msg then -1 else i
    let i := if !bcs msg result then -2 else i
    i
  else
    -3

/-! ## Handler state -/

/-- Calls on the channel that the guarded operations perform, in the order
they are issued (a ghost log; the program keeps no such record). -/
inductive PortCall where
  | select
  | read
  | write
  | tcdrain
  | close
  deriving DecidableEq, Repr

/-- Modelled from the spec: the macro `SERIAL_PORT_CLOSED` of `Serial.h`
(not part of the sources). The link status has the two states Closed and
Open; the code stores `true` on a successful open and `false` on close, so
Closed is the value of `false`. -/
def SERIAL_PORT_CLOSED : Int := 0

/-- Value stored by `status = true` in `open_serial`. -/
def SERIAL_PORT_OPEN : Int := 1

/-- `EXIT_FAILURE` of `<stdlib.h>`. -/
def EXIT_FAILURE : Int := 1

/-- Data members of `Serial` used by the file. `lock` is the mutex as a
held/free flag (`true` = held); `calls` is the ghost log of channel calls.
The member `set` (an `fd_set`) is only handed to `select`, whose outcome is an
input of the model, and has no field here. -/
structure Serial where
  debug : Bool
  fd : Int
  status : Int
  uart_name : String
  baudrate : Int
  timeout_sec : Int
  timeout_usec : Int
  msg : Buffer
  result : Int
  rv : Int
  lock : Bool
  calls : List PortCall

/-- Source `Serial::initialize_defaults`. `s` is the object before
initialisation (its members are indeterminate), `mutexInit` the value
returned by `pthread_mutex_init`; a non-zero value makes the function
`throw 1`. -/
def initialize_defaults (mutexInit : Int) (s : Serial) : Except Int Serial :=
  let s := { s with debug := false, fd := -1, status := SERIAL_PORT_CLOSED }
  let s := { s with uart_name := "/dev/ttyUSB0", baudrate := 115200 }
  let s := { s with timeout_sec := 0, timeout_usec := 10000 }
  let result := mutexInit
  let s := { s with lock := false }
  if result ≠ 0 then Except.error 1 else Except.ok s

/-- Source constructor `Serial::Serial(const char *uart_name_, int baudrate_)`. -/
def Serial.create (mutexInit : Int) (raw : Serial) (uart_name_ : String) (baudrate_ : Int) :
    Except Int Serial :=
  match initialize_defaults mutexInit raw with
  | Except.error e => Except.error e
  | Except.ok s => Except.ok { s with uart_name := uart_name_, baudrate := baudrate_ }

/-- Call `pthread_mutex_lock(&lock)`: returns once the mutex is free, holding
it; on a mutex that stays held the call never returns (`none`). -/
def pthread_mutex_lock (s : Serial) : Option Serial :=
  if s.lock then none else some { s with lock := true }

/-- Call `pthread_mutex_unlock(&lock)`. -/
def pthread_mutex_unlock (s : Serial) : Serial :=
  { s with lock := false }

/-! ## Guarded port access -/

/-- Outcomes of the system calls of `_read_port`: the value returned by
`select`, the value returned by `read(fd, buf, 100)`, and the contents of the
local array `buf` after the read (whatever the read stored, and indeterminate
stack memory elsewhere). -/
structure ReadEnv where
  select : Int
  read : Int
  buf : Buffer

/-- The loop `for (uint16_t i = 0; i < 53; i++) msg[i] = buf[i];` run for
`n` iterations. -/
def copyPrefix (buf : Buffer) (msg : Buffer) (n : Nat) : Buffer :=
  (List.range n).foldl (fun m i => Function.update m i (buf i)) msg

/-- Source `Serial::_read_port`: lock; `rv = select(...)`; on `rv == -1` or
`rv == 0` unlock and return `0`; otherwise read, copy 53 bytes of `buf` into
`msg`, unlock, return the number of bytes received. -/
def _read_port (e : ReadEnv) (s : Serial) : Option (Int × Serial) :=
  match pthread_mutex_lock s with
  | none => none
  | some s =>
    let s := { s with rv := e.select, calls := s.calls ++ [PortCall.select] }
    if s.rv = -1 then
      some (0, pthread_mutex_unlock s)
    else if s.rv = 0 then
      some (0, pthread_mutex_unlock s)
    else
      let bytesReceived := e.read
      let s := { s with calls := s.calls ++ [PortCall.read] }
      let s := { s with msg := copyPrefix e.buf s.msg 53 }
      let s := pthread_mutex_unlock s
      some (bytesReceived, s)

/-- Source `Serial::_write_port(char *buf, unsigned len)`: lock, `write`,
`tcdrain`, unlock, return the value of `write`. `written` is that value. -/
def _write_port (written : Int) (s : Serial) : Option (Int × Serial) :=
  match pthread_mutex_lock s with
  | none => none
  | some s =>
    let bytesWritten := written
    let s := { s with calls := s.calls ++ [PortCall.write] }
    let s := { s with calls := s.calls ++ [PortCall.tcdrain] }
    let s := pthread_mutex_unlock s
    some (bytesWritten, s)

/-- Source `Serial::write_message(char buf[])`: writes `DEFAULT_COMMAND_SIZE`
bytes through `_write_port` and returns its result. -/
def write_message (written : Int) (s : Serial) : Option (Int × Serial) :=
  _write_port written s

/-- Source `Serial::read_message`: `result = _read_port()`,
`validate = _validate(result)`, `if (!validate) result = validate;`, then the
`switch (result)`: the cases `0`, `-1`, `-2`, `-3` return `msgReceived`
(still `false`), the default sets it to `true`. -/
def read_message (t : Target) (e : ReadEnv) (s : Serial) : Option (Bool × Serial) :=
  let msgReceived := false
  let s := { s with result := 0 }
  match _read_port e s with
  | none => none
  | some (r, s) =>
    let s := { s with result := r }
    let validate := _validate t s.msg s.result
    let s := if validate = 0 then { s with result := validate } else s
    if s.result = 0 then some (msgReceived, s)
    else if s.result = -1 then some (msgReceived, s)
    else if s.result = -2 then some (msgReceived, s)
    else if s.result = -3 then some (msgReceived, s)
    else
      let msgReceived := true
      some (msgReceived, s)

/-! ## Connection lifecycle -/

/-- The fields of `struct termios` that `_setup_port` touches; the speeds are
recorded as the baud rate the `B...` constant stands for. -/
structure Termios where
  c_iflag : Nat
  c_oflag : Nat
  c_lflag : Nat
  c_cflag : Nat
  vmin : Nat
  vtime : Nat
  ispeed : Int
  ospeed : Int

/-- Bit masks of `<termios.h>` on the target, one per group that
`_setup_port` clears or sets: `iflagOff` is
`IGNBRK | BRKINT | ICRNL | INLCR | PARMRK | INPCK | ISTRIP | IXON`, `oflagOff`
is `OCRNL | ONLCR | ONLRET | ONOCR | OFILL | OPOST`, `olcuc` and `onoeot` are
`OLCUC` and `ONOEOT` (zero where the macro is not defined), `lflagOff` is
`ECHO | ECHONL | ICANON | IEXTEN | ISIG`, `cflagOff` is `CSIZE | PARENB`. -/
structure TermiosMacros where
  iflagOff : Nat
  oflagOff : Nat
  olcuc : Nat
  onoeot : Nat
  lflagOff : Nat
  cflagOff : Nat
  cs8 : Nat

/-- Bit operation `x &= ~m`. -/
def clearBits (x m : Nat) : Nat := x ^^^ (x &&& m)

/-- Outcomes of the system calls of `_setup_port`: the values returned by
`isatty` and `tcgetattr`, the configuration `tcgetattr` stored, and the values
`cfsetispeed`, `cfsetospeed` and `tcsetattr` return for the configuration (and
speed) they are handed. -/
structure SetupEnv where
  isatty : Int
  tcgetattr : Int
  config : Termios
  cfsetispeed : Termios → Int → Int
  cfsetospeed : Termios → Int → Int
  tcsetattr : Termios → Int

/-- A `switch` arm of the form
`if (cfsetispeed(&config, B) < 0 || cfsetospeed(&config, B) < 0) return false;`
(`none` is the `return false`); the second call is made only when the first
did not fail. -/
def setSpeedChecked (e : SetupEnv) (config : Termios) (b : Int) : Option Termios :=
  if e.cfsetispeed config b < 0 then none
  else
    let config := { config with ispeed := b }
    if e.cfsetospeed config b < 0 then none
    else some { config with ospeed := b }

/-- A `switch` arm of the form `cfsetispeed(&config, B); cfsetospeed(&config, B);`
whose return values are not looked at. -/
def setSpeedUnchecked (e : SetupEnv) (config : Termios) (b : Int) : Termios :=
  let config := if e.cfsetispeed config b < 0 then config else { config with ispeed := b }
  if e.cfsetospeed config b < 0 then config else { config with ospeed := b }

/-- The `switch (baud)` of `_setup_port`: `none` is `return false`. -/
def applyBaudrate (e : SetupEnv) (config : Termios) (baud : Int) : Option Termios :=
  if baud = 1200 then setSpeedChecked e config 1200
  else if baud = 1800 then some (setSpeedUnchecked e config 1800)
  else if baud = 9600 then some (setSpeedUnchecked e config 9600)
  else if baud = 19200 then some (setSpeedUnchecked e config 19200)
  else if baud = 38400 then setSpeedChecked e config 38400
  else if baud = 57600 then setSpeedChecked e config 57600
  else if baud = 115200 then setSpeedChecked e config 115200
  else if baud = 460800 then setSpeedChecked e config 460800
  else if baud = 921600 then setSpeedChecked e config 921600
  else none

/-- Source `Serial::_setup_port(int baud, int data_bits, int stop_bits,
bool parity, bool hardware_control)`: `false` when the descriptor is not a
terminal, when `tcgetattr` fails, when the `switch (baud)` returns, or when
`tcsetattr` fails; `true` otherwise. The last four parameters are not used by
the body. -/
def _setup_port (K : TermiosMacros) (e : SetupEnv) (baud : Int) (_data_bits _stop_bits : Int)
    (_parity _hardware_control : Bool) : Bool :=
  if e.isatty = 0 then false
  else if e.tcgetattr < 0 then false
  else
    let config := e.config
    let config := { config with c_iflag := clearBits config.c_iflag K.iflagOff }
    let config := { config with c_oflag := clearBits config.c_oflag K.oflagOff }
    let config := { config with c_oflag := clearBits config.c_oflag K.olcuc }
    let config := { config with c_oflag := clearBits config.c_oflag K.onoeot }
    let config := { config with c_lflag := clearBits config.c_lflag K.lflagOff }
    let config := { config with c_cflag := clearBits config.c_cflag K.cflagOff }
    let config := { config with c_cflag := config.c_cflag ||| K.cs8 }
    let config := { config with vmin := 1, vtime := 10 }
    match applyBaudrate e config baud with
    | none => false
    | some config =>
      if e.tcsetattr config < 0 then false
      else true

/-- Source `Serial::_open_port`: `fd = open(...)`; returns `-1` when that is
`-1`, and `fd` otherwise (after `fcntl(fd, F_SETFL, 0)`). `opened` is the
value returned by `open`. -/
def _open_port (opened : Int) (s : Serial) : Int × Serial :=
  let s := { s with fd := opened }
  if s.fd = -1 then (-1, s) else (s.fd, s)

/-- Outcomes of the system calls of `open_serial`. -/
structure OpenEnv where
  opened : Int
  setup : SetupEnv

/-- Source `Serial::open_serial`: throws `EXIT_FAILURE` when the port cannot
be opened, when `_setup_port` returns `false`, or when `fd <= 0`; otherwise
sets `status = true` and returns `0`. The second component is the handler
state on return or at the throw. -/
def open_serial (K : TermiosMacros) (e : OpenEnv) (s : Serial) : Except Int Int × Serial :=
  let r : Int × Serial := _open_port e.opened s
  let s : Serial := { r.2 with fd := r.1 }
  if s.fd = -1 then (Except.error EXIT_FAILURE, s)
  else
    let success := _setup_port K e.setup s.baudrate 8 1 false false
    if !success then (Except.error EXIT_FAILURE, s)
    else if s.fd ≤ 0 then (Except.error EXIT_FAILURE, s)
    else
      let s := { s with status := SERIAL_PORT_OPEN }
      (Except.ok 0, s)

/-- Source `Serial::start`: returns what `open_serial` returns; its throw
passes through. -/
def start (K : TermiosMacros) (e : OpenEnv) (s : Serial) : Except Int Int × Serial :=
  open_serial K e s

/-- Source `Serial::close_serial`: `result = close(fd)`; a non-zero result is
only reported; then `status = false`. `closed` is the value of `close`. -/
def close_serial (closed : Int) (s : Serial) : Serial :=
  let _result := closed
  let s := { s with calls := s.calls ++ [PortCall.close] }
  { s with status := 0 }

/-- Source `Serial::stop`: calls `close_serial`. -/
def stop (closed : Int) (s : Serial) : Serial :=
  close_serial closed s

/-- The nine baud rates that have a `case` in the `switch` of `_setup_port`. -/
def supportedBaudrates : List Int :=
  [1200, 1800, 9600, 19200, 38400, 57600, 115200, 460800, 921600]

/-- A handler as the constructor leaves it when the mutex initialises, with
an all-zero receive buffer: used to evaluate the operations on concrete
inputs. -/
def freshHandler (uart_name_ : String) (baudrate_ : Int) : Serial :=
  { debug := false, fd := -1, status := SERIAL_PORT_CLOSED, uart_name := uart_name_,
    baudrate := baudrate_, timeout_sec := 0, timeout_usec := 10000,
    msg := Buffer.ofList [], result := 0, rv := 0, lock := false, calls := [] }

/-- Masks of `<termios.h>` on Linux, used to evaluate `_setup_port` on
concrete inputs (`ONOEOT` is not defined there). -/
def linuxMacros : TermiosMacros :=
  { iflagOff := 0x57B, oflagOff := 0x7D, olcuc := 0x2, onoeot := 0, lflagOff := 0x804B,
    cflagOff := 0x130, cs8 := 0x30 }

/-- A device on which every call of `open_serial` succeeds: `open` returns
descriptor 3, which is a terminal, and no configuration call fails. -/
def deviceReady : OpenEnv :=
  { opened := 3,
    setup := { isatty := 1, tcgetattr := 0,
               config := { c_iflag := 0x500, c_oflag := 0x5, c_lflag := 0x8A3B, c_cflag := 0xBD,
                           vmin := 1, vtime := 0, ispeed := 9600, ospeed := 9600 },
               cfsetispeed := fun _ _ => 0, cfsetospeed := fun _ _ => 0,
               tcsetattr := fun _ => 0 } }

/-! ## Lemmas on the validator -/

/-- The C remainder by 256 is congruent to its argument modulo 256. -/
theorem cRem_emod (a : Int) : cRem a 256 % 256 = a % 256 := by
  unfold cRem
  have h := Int.tmod_def a 256
  generalize a.tdiv 256 = q at h
  omega

/-- On a non-negative argument the C remainder is the mathematical one. -/
theorem cRem_of_nonneg (a : Int) (h : 0 ≤ a) : cRem a 256 = a % 256 := by
  unfold cRem
  exact Int.tmod_eq_emod h (by decide)

/-- A byte converted to plain `char` is the byte or the byte minus 256. -/
theorem toChar_cases (t : Target) (b : Byte) :
    toChar t b = (b.val : Int) ∨ (toChar t b = (b.val : Int) - 256 ∧ 128 ≤ b.val) := by
  unfold toChar
  split
  · rename_i h
    simp only [Bool.and_eq_true, decide_eq_true_eq] at h
    exact Or.inr ⟨rfl, h.2⟩
  · exact Or.inl rfl

/-- On a target with unsigned plain `char` the conversion keeps the byte. -/
theorem toChar_unsigned (t : Target) (h : t.charSigned = false) (b : Byte) :
    toChar t b = (b.val : Int) := by
  simp [toChar, h]

/-- Whatever the target, `hcs` can only hold when byte 3 is the sum of bytes
1 and 2 modulo 256. -/
theorem wire_of_hcs (t : Target) (msg : Buffer) (h : hcs t msg = true) :
    (msg 3).val = ((msg 1).val + (msg 2).val) % 256 := by
  unfold hcs _header_checksum at h
  simp only [decide_eq_true_eq] at h
  have hc := cRem_emod (toChar t (msg 1) + toChar t (msg 2))
  rw [h] at hc
  have h3 := (msg 3).isLt
  rcases toChar_cases t (msg 1) with h1 | ⟨h1, _⟩ <;>
    rcases toChar_cases t (msg 2) with h2 | ⟨h2, _⟩ <;>
    rw [h1, h2] at hc <;> omega

/-- When both converted bytes are their wire values, `hcs` holds exactly when
byte 3 is the sum of bytes 1 and 2 modulo 256. -/
theorem hcs_of_wire (t : Target) (msg : Buffer)
    (h1 : toChar t (msg 1) = ((msg 1).val : Int)) (h2 : toChar t (msg 2) = ((msg 2).val : Int))
    (h : (msg 3).val = ((msg 1).val + (msg 2).val) % 256) : hcs t msg = true := by
  unfold hcs _header_checksum
  simp only [decide_eq_true_eq]
  rw [h1, h2, cRem_of_nonneg _ (by omega)]
  omega

/-- The local `bcs` holds exactly when `result` is byte 2 plus 4. -/
theorem bcs_iff (msg : Buffer) (result : Int) :
    bcs msg result = true ↔ ((msg 2).val : Int) + 4 = result := by
  unfold bcs _body_checksum
  by_cases h : ((msg 2).val : Int) + 4 = result <;> simp [h]

/-- Result of `_validate` on a buffer that starts with `0x3E`, as one
expression in `hcs` and `bcs`. -/
theorem validate_of_start (t : Target) (msg : Buffer) (result : Int)
    (h0 : (msg 0).val = 0x3E) :
    _validate t msg result =
      if bcs msg result = false then -2 else if hcs t msg = false then -1 else 1 := by
  unfold _validate
  rw [if_pos h0]
  cases hcs t msg <;> cases bcs msg result <;> rfl

/-- On a target with unsigned plain `char`, `_header_checksum` of two bytes
is their sum modulo 256, a value in `0 .. 255`, and `hcs` holds exactly when
byte 3 holds that value. -/
theorem header_checksum_unsigned_char (t : Target) (ht : t.charSigned = false) :
    (∀ c d : Byte, _header_checksum (toChar t c) (toChar t d) = (((c.val + d.val) % 256 : Nat) : Int)) ∧
    (∀ msg : Buffer, hcs t msg = true ↔ (msg 3).val = ((msg 1).val + (msg 2).val) % 256) := by
  refine ⟨fun c d => ?_, fun msg => ⟨wire_of_hcs t msg, ?_⟩⟩
  · show cRem (toChar t c + toChar t d) 256 = _
    rw [toChar_unsigned t ht, toChar_unsigned t ht, cRem_of_nonneg _ (by omega)]
    omega
  · exact hcs_of_wire t msg (toChar_unsigned t ht _) (toChar_unsigned t ht _)

/-! ## The frame validator: claims C2, C3, C4, C5, C10 -/

/-- C2, as stated, fails: on the buffer `[0x3E, 0x05, 0x02, 0x08, 0xAA, 0xBB]`
(start marker right, byte 3 is not `(5 + 2) mod 256`) with `bytes_read = 5`
both checks fail and `_validate` returns `-2`, not `-1`, on either kind of
target: the later body test overwrites the header code. -/
theorem validate_header_precedence_counterexample :
    ((Buffer.ofList [0x3E, 0x05, 0x02, 0x08, 0xAA, 0xBB]) 0).val = 0x3E ∧
    ((Buffer.ofList [0x3E, 0x05, 0x02, 0x08, 0xAA, 0xBB]) 3).val ≠
      (((Buffer.ofList [0x3E, 0x05, 0x02, 0x08, 0xAA, 0xBB]) 1).val +
        ((Buffer.ofList [0x3E, 0x05, 0x02, 0x08, 0xAA, 0xBB]) 2).val) % 256 ∧
    _validate { charSigned := false } (Buffer.ofList [0x3E, 0x05, 0x02, 0x08, 0xAA, 0xBB]) 5 = -2 ∧
    _validate { charSigned := true } (Buffer.ofList [0x3E, 0x05, 0x02, 0x08, 0xAA, 0xBB]) 5 = -2 ∧
    ¬ (∀ (t : Target) (msg : Buffer) (r : Int), (msg 0).val = 0x3E →
        (msg 3).val ≠ ((msg 1).val + (msg 2).val) % 256 → _validate t msg r = -1) := by
  refine ⟨by decide, by decide, by decide, by decide, fun h => ?_⟩
  have h5 := h { charSigned := false } (Buffer.ofList [0x3E, 0x05, 0x02, 0x08, 0xAA, 0xBB]) 5
    (by decide) (by decide)
  revert h5
  decide

/-- C2, amended: for every target, every buffer whose byte 0 is `0x3E` and
whose byte 3 differs from `(byte 1 + byte 2) mod 256`, and every `bytes_read`,
`_validate` returns `-1` when `bytes_read` is byte 2 plus 4 and `-2` when it
is not (a body failure takes precedence over a header failure). -/
theorem validate_bad_header (t : Target) (msg : Buffer) (bytes_read : Int)
    (h0 : (msg 0).val = 0x3E)
    (h3 : (msg 3).val ≠ ((msg 1).val + (msg 2).val) % 256) :
    _validate t msg bytes_read = if ((msg 2).val : Int) + 4 = bytes_read then -1 else -2 := by
  have hh : hcs t msg = false := by
    cases hc : hcs t msg
    · rfl
    · exact absurd (wire_of_hcs t msg hc) h3
  rw [validate_of_start t msg bytes_read h0, hh]
  by_cases hb : ((msg 2).val : Int) + 4 = bytes_read
  · have : bcs msg bytes_read = true := (bcs_iff msg bytes_read).mpr hb
    simp [this, hb]
  · have : bcs msg bytes_read = false := by
      cases hc : bcs msg bytes_read
      · rfl
      · exact absurd ((bcs_iff msg bytes_read).mp hc) hb
    simp [this, hb]

/-- Witness of `validate_bad_header`: `[0x3E, 0x05, 0x02, 0x08, 0xAA, 0xBB]`
with `bytes_read = 6` gives `-1` on a signed-`char` target. -/
theorem validate_bad_header_witness :
    _validate { charSigned := true } (Buffer.ofList [0x3E, 0x05, 0x02, 0x08, 0xAA, 0xBB]) 6 = -1 :=
  validate_bad_header { charSigned := true } (Buffer.ofList [0x3E, 0x05, 0x02, 0x08, 0xAA, 0xBB]) 6
    (by decide) (by decide)

/-- A frame with byte 0 equal to `0x3E`, byte 3 equal to
`(byte 1 + byte 2) mod 256` and `bytes_read` equal to byte 2 plus 4 is
accepted (`_validate` returns `1`) whenever the conversion to `char` keeps the
wire value of bytes 1 and 2: always on a target with unsigned `char`, and for
bytes below `0x80` on a target with signed `char`. -/
theorem validate_valid_frame (t : Target) (msg : Buffer) (bytes_read : Int)
    (hw1 : toChar t (msg 1) = ((msg 1).val : Int))
    (hw2 : toChar t (msg 2) = ((msg 2).val : Int))
    (h0 : (msg 0).val = 0x3E)
    (h3 : (msg 3).val = ((msg 1).val + (msg 2).val) % 256)
    (hr : bytes_read = ((msg 2).val : Int) + 4) :
    _validate t msg bytes_read = 1 := by
  rw [validate_of_start t msg bytes_read h0, hcs_of_wire t msg hw1 hw2 h3,
    (bcs_iff msg bytes_read).mpr hr.symm]
  rfl

/-- The frame `[0x3E, 0x05, 0x02, 0x07, 0xAA, 0xBB]` with `bytes_read = 6` is
accepted on a signed-`char` target: its bytes 1 and 2 are below `0x80`. -/
theorem validate_valid_frame_witness :
    _validate { charSigned := true } (Buffer.ofList [0x3E, 0x05, 0x02, 0x07, 0xAA, 0xBB]) 6 = 1 :=
  validate_valid_frame { charSigned := true } (Buffer.ofList [0x3E, 0x05, 0x02, 0x07, 0xAA, 0xBB]) 6
    (by decide) (by decide) (by decide) (by decide) (by decide)

/-- C3 fails on a target whose plain `char` is signed: the buffer
`[0x3E, 0x80, 0x02, 0x82, 0xAA, 0xBB]` with `bytes_read = 6` has byte 0 equal
to `0x3E`, byte 3 equal to `(0x80 + 0x02) mod 256 = 0x82` and `bytes_read`
equal to byte 2 plus 4, yet `_validate` returns `-1`: byte 1 reaches
`_header_checksum` as `-128`, the sum is `-126`, its C remainder by 256 is
`-126`, and that is not byte 3. The same buffer is accepted on a target with
unsigned `char`. So the claim, for every target, buffer and byte count, does
not hold. -/
theorem validate_rejects_valid_frame_signed_char :
    ((Buffer.ofList [0x3E, 0x80, 0x02, 0x82, 0xAA, 0xBB]) 0).val = 0x3E ∧
    ((Buffer.ofList [0x3E, 0x80, 0x02, 0x82, 0xAA, 0xBB]) 3).val =
      (((Buffer.ofList [0x3E, 0x80, 0x02, 0x82, 0xAA, 0xBB]) 1).val +
        ((Buffer.ofList [0x3E, 0x80, 0x02, 0x82, 0xAA, 0xBB]) 2).val) % 256 ∧
    (6 : Int) = (((Buffer.ofList [0x3E, 0x80, 0x02, 0x82, 0xAA, 0xBB]) 2).val : Int) + 4 ∧
    toChar { charSigned := true } ((Buffer.ofList [0x3E, 0x80, 0x02, 0x82, 0xAA, 0xBB]) 1) = -128 ∧
    _header_checksum (-128) 2 = -126 ∧
    hcs { charSigned := true } (Buffer.ofList [0x3E, 0x80, 0x02, 0x82, 0xAA, 0xBB]) = false ∧
    _validate { charSigned := true } (Buffer.ofList [0x3E, 0x80, 0x02, 0x82, 0xAA, 0xBB]) 6 = -1 ∧
    _validate { charSigned := false } (Buffer.ofList [0x3E, 0x80, 0x02, 0x82, 0xAA, 0xBB]) 6 = 1 ∧
    ¬ (∀ (t : Target) (msg : Buffer) (r : Int), (msg 0).val = 0x3E →
        (msg 3).val = ((msg 1).val + (msg 2).val) % 256 → r = ((msg 2).val : Int) + 4 →
        _validate t msg r = 1) := by
  refine ⟨by decide, by decide, by decide, by decide, by decide, by decide, by decide,
    by decide, fun h => ?_⟩
  have h6 := h { charSigned := true } (Buffer.ofList [0x3E, 0x80, 0x02, 0x82, 0xAA, 0xBB]) 6
    (by decide) (by decide) (by decide)
  revert h6
  decide

/-- C4: for every target, every buffer with byte 0 equal to `0x3E` and byte 3
equal to `(byte 1 + byte 2) mod 256`, and every `bytes_read` different from
byte 2 plus 4, `_validate` returns `-2`. -/
theorem validate_bad_body (t : Target) (msg : Buffer) (bytes_read : Int)
    (h0 : (msg 0).val = 0x3E)
    (_h3 : (msg 3).val = ((msg 1).val + (msg 2).val) % 256)
    (hr : bytes_read ≠ ((msg 2).val : Int) + 4) :
    _validate t msg bytes_read = -2 := by
  have hb : bcs msg bytes_read = false := by
    cases hc : bcs msg bytes_read
    · rfl
    · exact absurd ((bcs_iff msg bytes_read).mp hc).symm hr
  rw [validate_of_start t msg bytes_read h0, hb]
  rfl

/-- Witness of `validate_bad_body`: `[0x3E, 0x05, 0x02, 0x07, 0xAA, 0xBB]`
with `bytes_read = 5`. -/
theorem validate_bad_body_witness :
    _validate { charSigned := false } (Buffer.ofList [0x3E, 0x05, 0x02, 0x07, 0xAA, 0xBB]) 5 = -2 :=
  validate_bad_body { charSigned := false } (Buffer.ofList [0x3E, 0x05, 0x02, 0x07, 0xAA, 0xBB]) 5
    (by decide) (by decide) (by decide)

/-- C5: for every target, every buffer whose byte 0 is not `0x3E` and every
`bytes_read`, `_validate` returns `-3`; so two such buffers, with any other
bytes and any byte counts, get the same result. -/
theorem validate_malformed (t : Target) (msg : Buffer) (bytes_read : Int)
    (h0 : (msg 0).val ≠ 0x3E) :
    _validate t msg bytes_read = -3 ∧
    ∀ (t2 : Target) (msg2 : Buffer) (bytes_read2 : Int), (msg2 0).val ≠ 0x3E →
      _validate t2 msg2 bytes_read2 = _validate t msg bytes_read := by
  have key : ∀ (u : Target) (m : Buffer) (r : Int), (m 0).val ≠ 0x3E → _validate u m r = -3 := by
    intro u m r hm
    unfold _validate
    rw [if_neg hm]
  refine ⟨key t msg bytes_read h0, fun t2 msg2 r2 h2 => ?_⟩
  rw [key t msg bytes_read h0, key t2 msg2 r2 h2]

/-- Witness of `validate_malformed`: `[0x3F, 0x05, 0x02, 0x07, 0xAA, 0xBB]`
with `bytes_read = 6`, whose header and body checks would both pass. -/
theorem validate_malformed_witness :
    _validate { charSigned := false } (Buffer.ofList [0x3F, 0x05, 0x02, 0x07, 0xAA, 0xBB]) 6 = -3 :=
  (validate_malformed { charSigned := false } (Buffer.ofList [0x3F, 0x05, 0x02, 0x07, 0xAA, 0xBB]) 6
    (by decide)).1

/-- C10 fails on a target whose plain `char` is signed: for the wire bytes
`0x80` and `0xFF` the conversion to `char` gives `-128` and `-1`,
`_header_checksum` returns `-129`, which is not the single-byte value
`(0x80 + 0xFF) mod 256 = 0x7F`, and `hcs` is false on a buffer whose byte 3
holds `0x7F`; for the bytes `0xFF` and `0x00` it returns `-1` where the sum
modulo 256 is `0xFF`. On a target with unsigned `char` the claim holds
(`header_checksum_unsigned_char`). -/
theorem header_checksum_signed_char :
    toChar { charSigned := true } 0x80 = -128 ∧
    toChar { charSigned := true } 0xFF = -1 ∧
    _header_checksum (toChar { charSigned := true } 0x80) (toChar { charSigned := true } 0xFF) = -129 ∧
    (0x80 + 0xFF) % 256 = 0x7F ∧
    hcs { charSigned := true } (Buffer.ofList [0x3E, 0x80, 0xFF, 0x7F]) = false ∧
    _header_checksum (toChar { charSigned := true } 0xFF) (toChar { charSigned := true } 0x00) = -1 ∧
    (0xFF + 0x00) % 256 = 0xFF := by
  decide

/-! ## Lemmas on the guarded port access -/

/-- No path of `_validate` returns `0`: the codes are `1`, `-1`, `-2`, `-3`. -/
theorem validate_ne_zero (t : Target) (msg : Buffer) (result : Int) :
    _validate t msg result ≠ 0 := by
  unfold _validate
  split
  · cases hcs t msg <;> cases bcs msg result <;> decide
  · decide

/-- With the lock free, `_read_port` returns `0` and the handler with only
`rv` and the call log changed when `select` gives `-1` or `0`. -/
theorem read_port_not_ready (e : ReadEnv) (s : Serial) (hl : s.lock = false)
    (h : e.select = 0 ∨ e.select = -1) :
    _read_port e s =
      some (0, { s with rv := e.select, calls := s.calls ++ [PortCall.select], lock := false }) := by
  unfold _read_port pthread_mutex_lock pthread_mutex_unlock
  rcases h with h | h <;> simp [hl, h]

/-- With the lock free, `_read_port` returns the value of `read` and stores
the first 53 bytes of `buf` in `msg` when `select` gives neither `-1` nor `0`. -/
theorem read_port_ready (e : ReadEnv) (s : Serial) (hl : s.lock = false)
    (h0 : e.select ≠ 0) (h1 : e.select ≠ -1) :
    _read_port e s =
      some (e.read, { s with rv := e.select,
                             calls := s.calls ++ [PortCall.select] ++ [PortCall.read],
                             msg := copyPrefix e.buf s.msg 53, lock := false }) := by
  unfold _read_port pthread_mutex_lock pthread_mutex_unlock
  simp [hl, h0, h1]

/-- With the lock free, `_write_port` returns the value of `write` after the
calls `write` and `tcdrain`, with the lock free again. -/
theorem write_port_returns (written : Int) (s : Serial) (hl : s.lock = false) :
    _write_port written s =
      some (written, { s with calls := s.calls ++ [PortCall.write] ++ [PortCall.tcdrain],
                              lock := false }) := by
  unfold _write_port pthread_mutex_lock pthread_mutex_unlock
  simp [hl]

/-- The copy loop run `n` times stores `buf` below `n` and keeps `msg` from
`n` on. -/
theorem copyPrefix_apply (buf msg : Buffer) (n i : Nat) :
    copyPrefix buf msg n i = if i < n then buf i else msg i := by
  unfold copyPrefix
  induction n with
  | zero => simp
  | succ k ih =>
    rw [List.range_succ, List.foldl_append]
    simp only [List.foldl_cons, List.foldl_nil]
    by_cases hik : i = k
    · subst hik
      simp
    · rw [Function.update_noteq hik, ih]
      by_cases hlt : i < k
      · simp [hlt, Nat.lt_succ_of_lt hlt]
      · have : ¬ i < k + 1 := by omega
        simp [hlt, this]

/-- With the lock free, `read_message` returns, and its result is `true`
exactly when `select` reported readiness and the value of `read` is none of
`0`, `-1`, `-2`, `-3`: the code of `_validate` does not enter the result. -/
theorem read_message_returns (t : Target) (e : ReadEnv) (s : Serial) (hl : s.lock = false) :
    (read_message t e s).map Prod.fst =
      some (decide (e.select ≠ 0 ∧ e.select ≠ -1 ∧
        e.read ≠ 0 ∧ e.read ≠ -1 ∧ e.read ≠ -2 ∧ e.read ≠ -3)) := by
  have hl0 : ({ s with result := 0 } : Serial).lock = false := hl
  unfold read_message
  by_cases h : e.select = 0 ∨ e.select = -1
  · simp only [read_port_not_ready e _ hl0 h]
    rcases h with h | h <;> simp [validate_ne_zero, h]
  · have h0 : e.select ≠ 0 := fun c => h (Or.inl c)
    have h1 : e.select ≠ -1 := fun c => h (Or.inr c)
    simp only [read_port_ready e _ hl0 h0 h1]
    simp only [validate_ne_zero, if_false]
    by_cases r0 : e.read = 0
    · simp [r0]
    · by_cases r1 : e.read = -1
      · simp [r1]
      · by_cases r2 : e.read = -2
        · simp [r2]
        · by_cases r3 : e.read = -3
          · simp [r3]
          · simp [h0, h1, r0, r1, r2, r3]

/-! ## Lemmas on the connection lifecycle -/

/-- The `switch (baud)` takes its `default` arm for a rate outside the nine
listed ones. -/
theorem applyBaudrate_unsupported (e : SetupEnv) (config : Termios) (baud : Int)
    (h : baud ∉ supportedBaudrates) : applyBaudrate e config baud = none := by
  simp only [supportedBaudrates, List.mem_cons, List.mem_singleton, List.mem_nil_iff,
    not_or, or_false] at h
  obtain ⟨h1, h2, h3, h4, h5, h6, h7, h8, h9⟩ := h
  unfold applyBaudrate
  simp [h1, h2, h3, h4, h5, h6, h7, h8, h9]

/-- For a rate outside the nine listed ones `_setup_port` returns `false`
whatever the device calls return. -/
theorem setup_port_unsupported (K : TermiosMacros) (e : SetupEnv) (baud : Int)
    (data_bits stop_bits : Int) (parity hardware_control : Bool)
    (h : baud ∉ supportedBaudrates) :
    _setup_port K e baud data_bits stop_bits parity hardware_control = false := by
  unfold _setup_port
  split
  · rfl
  · split
    · rfl
    · simp only [applyBaudrate_unsupported e _ baud h]

/-- The function `open_serial` changes the status only on its successful
path, which needs `_setup_port` to return `true`. -/
theorem open_serial_cases (K : TermiosMacros) (e : OpenEnv) (s : Serial) :
    ((open_serial K e s).1 = Except.error EXIT_FAILURE ∧ (open_serial K e s).2.status = s.status) ∨
    ((open_serial K e s).1 = Except.ok 0 ∧ (open_serial K e s).2.status = SERIAL_PORT_OPEN ∧
      _setup_port K e.setup s.baudrate 8 1 false false = true) := by
  unfold open_serial _open_port
  by_cases h1 : e.opened = -1
  · simp [h1]
  · cases hs : _setup_port K e.setup s.baudrate 8 1 false false
    · simp [h1, hs]
    · by_cases h2 : e.opened ≤ 0
      · simp [h1, hs, h2]
      · simp [h1, hs, h2]

/-- A handler that the constructor returns has status Closed, the free lock
and the requested baud rate. -/
theorem create_ok (mutexInit : Int) (raw : Serial) (name : String) (baud : Int) (s : Serial)
    (h : Serial.create mutexInit raw name baud = Except.ok s) :
    s.status = SERIAL_PORT_CLOSED ∧ s.baudrate = baud ∧ s.lock = false := by
  unfold Serial.create initialize_defaults at h
  by_cases hm : mutexInit = 0
  · simp [hm] at h
    subst h
    exact ⟨rfl, rfl, rfl⟩
  · simp [hm] at h

/-! ## Reading, locking, lifecycle: claims C1, C6, C7, C8, C9 -/

/-- C1 fails on the code: with `select` reporting readiness and `read`
returning 6 (or 5) bytes, `read_message` returns `true` although `_validate`
on the received buffer gives `-3` (start marker `0x00`), `-1` (byte 3 is
`0x08`, not `0x07`) or `-2` (5 bytes read, 6 declared). Each pair is the
result of `read_message` and the code of `_validate` on the buffer and byte
count it leaves in the handler. -/
theorem read_message_accepts_invalid_frame :
    (read_message { charSigned := false }
        { select := 1, read := 6, buf := Buffer.ofList [0x00, 0x05, 0x02, 0x07, 0xAA, 0xBB] }
        (freshHandler "/dev/ttyUSB0" 115200)).map
      (fun p => (p.1, _validate { charSigned := false } p.2.msg p.2.result)) = some (true, -3) ∧
    (read_message { charSigned := false }
        { select := 1, read := 6, buf := Buffer.ofList [0x3E, 0x05, 0x02, 0x08, 0xAA, 0xBB] }
        (freshHandler "/dev/ttyUSB0" 115200)).map
      (fun p => (p.1, _validate { charSigned := false } p.2.msg p.2.result)) = some (true, -1) ∧
    (read_message { charSigned := false }
        { select := 1, read := 5, buf := Buffer.ofList [0x3E, 0x05, 0x02, 0x07, 0xAA, 0xBB] }
        (freshHandler "/dev/ttyUSB0" 115200)).map
      (fun p => (p.1, _validate { charSigned := false } p.2.msg p.2.result)) = some (true, -2) := by
  decide

/-- C6: for a handler the constructor returned with baud rate `baud`, every
table of termios masks and every outcome of the device calls: when `baud` is
none of the nine supported rates, `_setup_port` returns `false` (for any
device outcomes and any other arguments), `open_serial` throws `EXIT_FAILURE`
and the status is still Closed; and when `open_serial` leaves the status Open,
`baud` is one of the nine rates. -/
theorem open_requires_supported_baudrate (K : TermiosMacros) (e : OpenEnv) (mutexInit : Int)
    (raw : Serial) (name : String) (baud : Int) (s : Serial)
    (hs : Serial.create mutexInit raw name baud = Except.ok s) :
    (baud ∉ supportedBaudrates →
      (∀ (se : SetupEnv) (data_bits stop_bits : Int) (parity hardware_control : Bool),
        _setup_port K se baud data_bits stop_bits parity hardware_control = false) ∧
      (open_serial K e s).1 = Except.error EXIT_FAILURE ∧
      (open_serial K e s).2.status = SERIAL_PORT_CLOSED) ∧
    ((open_serial K e s).2.status = SERIAL_PORT_OPEN → baud ∈ supportedBaudrates) := by
  obtain ⟨hst, hb, _⟩ := create_ok mutexInit raw name baud s hs
  have hne : SERIAL_PORT_CLOSED ≠ SERIAL_PORT_OPEN := by decide
  refine ⟨fun h => ⟨fun se d st p hw => setup_port_unsupported K se baud d st p hw h, ?_⟩, ?_⟩
  · rcases open_serial_cases K e s with ⟨h1, h2⟩ | ⟨_, _, h3⟩
    · exact ⟨h1, by rw [h2, hst]⟩
    · rw [hb, setup_port_unsupported K e.setup baud 8 1 false false h] at h3
      exact absurd h3 (by decide)
  · intro hopen
    by_contra h
    rcases open_serial_cases K e s with ⟨_, h2⟩ | ⟨_, _, h3⟩
    · rw [h2, hst] at hopen
      exact hne hopen
    · rw [hb, setup_port_unsupported K e.setup baud 8 1 false false h] at h3
      exact absurd h3 (by decide)

/-- Witness of `open_requires_supported_baudrate`: a handler constructed for
4800 baud on a device where every call succeeds; 4800 is not supported,
`open_serial` throws and the status stays Closed. -/
theorem open_requires_supported_baudrate_witness :
    (4800 : Int) ∉ supportedBaudrates ∧
    (open_serial linuxMacros deviceReady (freshHandler "/dev/ttyUSB0" 4800)).1
      = Except.error EXIT_FAILURE ∧
    (open_serial linuxMacros deviceReady (freshHandler "/dev/ttyUSB0" 4800)).2.status
      = SERIAL_PORT_CLOSED :=
  ⟨by decide,
   ((open_requires_supported_baudrate linuxMacros deviceReady 0 (freshHandler "" 0)
      "/dev/ttyUSB0" 4800 (freshHandler "/dev/ttyUSB0" 4800) rfl).1 (by decide)).2⟩

/-- C7: for every handler state and every value returned by `close`, the
status after `close_serial`, and after `stop`, is Closed, and the `close`
call has been issued. -/
theorem close_serial_closes (closed : Int) (s : Serial) :
    (close_serial closed s).status = SERIAL_PORT_CLOSED ∧
    (stop closed s).status = SERIAL_PORT_CLOSED ∧
    (close_serial closed s).calls = s.calls ++ [PortCall.close] :=
  ⟨rfl, rfl, rfl⟩

/-- C8: with the lock free on entry, when `select` returns `0` or `-1`,
`_read_port` returns `0`, issues `select` and no `read`, and leaves `msg`
unchanged; `read_message` then returns `false`, with `msg` unchanged, for
every target and every content of the buffer. -/
theorem read_no_data (t : Target) (e : ReadEnv) (s : Serial) (hl : s.lock = false)
    (h : e.select = 0 ∨ e.select = -1) :
    (∃ s1, _read_port e s = some (0, s1) ∧ s1.msg = s.msg ∧
      s1.calls = s.calls ++ [PortCall.select] ∧ PortCall.read ∉ [PortCall.select]) ∧
    (∃ s2, read_message t e s = some (false, s2) ∧ s2.msg = s.msg) := by
  constructor
  · exact ⟨_, read_port_not_ready e s hl h, rfl, rfl, by decide⟩
  · have hl0 : ({ s with result := 0 } : Serial).lock = false := hl
    unfold read_message
    simp only [read_port_not_ready e _ hl0 h]
    simp [validate_ne_zero]

/-- Witness of `read_no_data`: a timeout of `select` on a handler whose stale
buffer holds the valid frame `[0x3E, 0x05, 0x02, 0x07, 0xAA, 0xBB]`. -/
theorem read_no_data_witness :
    (∃ s1, _read_port { select := 0, read := 6, buf := Buffer.ofList [] }
        { freshHandler "/dev/ttyUSB0" 115200 with
          msg := Buffer.ofList [0x3E, 0x05, 0x02, 0x07, 0xAA, 0xBB] } = some (0, s1) ∧
      s1.msg = Buffer.ofList [0x3E, 0x05, 0x02, 0x07, 0xAA, 0xBB] ∧
      s1.calls = [] ++ [PortCall.select] ∧ PortCall.read ∉ [PortCall.select]) ∧
    (∃ s2, read_message { charSigned := false }
        { select := 0, read := 6, buf := Buffer.ofList [] }
        { freshHandler "/dev/ttyUSB0" 115200 with
          msg := Buffer.ofList [0x3E, 0x05, 0x02, 0x07, 0xAA, 0xBB] } = some (false, s2) ∧
      s2.msg = Buffer.ofList [0x3E, 0x05, 0x02, 0x07, 0xAA, 0xBB]) :=
  read_no_data { charSigned := false } { select := 0, read := 6, buf := Buffer.ofList [] }
    { freshHandler "/dev/ttyUSB0" 115200 with
      msg := Buffer.ofList [0x3E, 0x05, 0x02, 0x07, 0xAA, 0xBB] } rfl (Or.inl rfl)

/-- C9: if the lock is free on entry, `_read_port` returns with the lock free
for every outcome of `select` and `read`, and `_write_port` returns with the
lock free for every outcome of `write`. -/
theorem lock_released_on_return (e : ReadEnv) (written : Int) (s : Serial)
    (hl : s.lock = false) :
    (∃ r s1, _read_port e s = some (r, s1) ∧ s1.lock = false) ∧
    (∃ r s1, _write_port written s = some (r, s1) ∧ s1.lock = false) := by
  constructor
  · by_cases h : e.select = 0 ∨ e.select = -1
    · exact ⟨_, _, read_port_not_ready e s hl h, rfl⟩
    · exact ⟨_, _, read_port_ready e s hl (fun c => h (Or.inl c)) (fun c => h (Or.inr c)), rfl⟩
  · exact ⟨_, _, write_port_returns written s hl, rfl⟩

/-- Witness of `lock_released_on_return`: a failed `read` (`-1`) after a
ready `select`, and a failed `write` (`-1`), on a fresh handler. -/
theorem lock_released_on_return_witness :
    (freshHandler "/dev/ttyUSB0" 115200).lock = false ∧
    (∃ r s1, _read_port { select := 1, read := -1, buf := Buffer.ofList [] }
        (freshHandler "/dev/ttyUSB0" 115200) = some (r, s1) ∧ s1.lock = false) ∧
    (∃ r s1, _write_port (-1) (freshHandler "/dev/ttyUSB0" 115200) = some (r, s1) ∧
      s1.lock = false) :=
  ⟨rfl, lock_released_on_return { select := 1, read := -1, buf := Buffer.ofList [] } (-1)
    (freshHandler "/dev/ttyUSB0" 115200) rfl⟩

end GimbalSerial
